import Mathlib

/-!
Verification development for the app-nutris payment orchestration subsystem.

The definitions below are a shallow embedding of the TypeScript payment core:

* the four webhook receivers (Mercado Pago, Asaas, PagSeguro, Pagar.me edge
  functions), which look a Payment row up by its gateway-assigned id, map the
  incoming event to a candidate status, skip the write when the candidate
  equals the stored status, otherwise write the new status (setting paid_at
  when the new status is "approved") and, when the new status is "approved",
  call handlePaymentApproved;
* handlePaymentApproved, the provisioning side-effect handler (identical in
  all four copies in the source);
* the payment-status poll edge function;
* the payment-create edge function (precondition validation, gateway
  dispatch, Payment row insertion, synchronous card-approval provisioning).

Database reads (the Payment row found by gateway id, the settings row, the
profile rows, the live gateway status) are passed in as parameters standing
for the results of the corresponding queries; database writes and other side
effects are returned as explicit effect values.  Calendar dates are modelled
as integers counting days (the source compares a date-only plan_end_date,
parsed at midnight, with the current instant, so on the day scale the strict
comparison used below coincides with the comparison performed by the source).
-/

/-- The five-value normalized payment status vocabulary of the system. -/
inductive PaymentStatus where
  | pending
  | approved
  | rejected
  | expired
  | refunded
deriving DecidableEq, Repr

/-- The Payment row fields read by the reconciliation and provisioning code. -/
structure Payment where
  id : String
  client_id : Option String
  plan_id : String
  status : PaymentStatus
  paid_at : Option String
  customer_email : String
  customer_name : String
  customer_phone : Option String
deriving DecidableEq, Repr

/-- The subscription plan fields read by the payment core. -/
structure Plan where
  name : String
  duration_days : Nat
  price_cents : Nat
  is_active : Bool
deriving DecidableEq, Repr

/-- The profile (client account) fields read by the payment core. -/
structure Profile where
  id : String
  email : String
  plan_end_date : Option Int
deriving DecidableEq, Repr

/-- The payment_settings fields read by the payment core. -/
structure PaymentSettings where
  active_gateway : String
  pix_enabled : Bool
  boleto_enabled : Bool
  credit_card_enabled : Bool
deriving DecidableEq, Repr

/-- A state-changing action performed by a reconciliation entry point, in
order: an update of the Payment row (new status, and whether paid_at is set
to the current instant; the raw webhook payload stored alongside is omitted),
or an invocation of the provisioning side-effect handler. -/
inductive Effect where
  | updatePayment (newStatus : PaymentStatus) (setPaidAt : Bool)
  | provision
deriving DecidableEq, Repr

/-- HTTP status plus the ordered list of state-changing actions a webhook
handler performs. -/
structure WebhookOutcome where
  httpStatus : Nat
  effects : List Effect
deriving DecidableEq, Repr

/-- Shared tail of every webhook handler: compare the candidate status with
the stored one; equal means no write at all; different means one Payment row
update (with paid_at set exactly when the new status is approved) followed,
when the new status is approved, by one provisioning invocation. -/
def reconcileTail (stored candidate : PaymentStatus) : List Effect :=
  if candidate = stored then []
  else
    Effect.updatePayment candidate (candidate = PaymentStatus.approved) ::
      (if candidate = PaymentStatus.approved then [Effect.provision] else [])

/-- Parsed fields of an Asaas webhook body: the event string and the optional
payment id (body.payment.id). -/
structure AsaasBody where
  event : String
  paymentId : Option String
deriving DecidableEq, Repr

/-- The event whitelist of the Asaas webhook handler. -/
def asaasEvents : List String :=
  ["PAYMENT_CONFIRMED", "PAYMENT_RECEIVED", "PAYMENT_OVERDUE",
   "PAYMENT_DELETED", "PAYMENT_REFUNDED"]

/-- The Asaas event-to-status switch (default keeps the stored status). -/
def asaasMapStatus (event : String) (stored : PaymentStatus) : PaymentStatus :=
  if event = "PAYMENT_CONFIRMED" ∨ event = "PAYMENT_RECEIVED" then .approved
  else if event = "PAYMENT_OVERDUE" then .expired
  else if event = "PAYMENT_DELETED" then .rejected
  else if event = "PAYMENT_REFUNDED" then .refunded
  else stored

/-- The Asaas webhook handler.  body = none stands for a request whose body
fails JSON parsing, which throws and lands in the catch branch (HTTP 500);
dbPayment is the row found by (gateway_payment_id, gateway = asaas). -/
def asaasWebhook (body : Option AsaasBody) (dbPayment : Option Payment) :
    WebhookOutcome :=
  match body with
  | none => ⟨500, []⟩
  | some b =>
    match b.paymentId with
    | none => ⟨200, []⟩
    | some _ =>
      if b.event ∈ asaasEvents then
        match dbPayment with
        | none => ⟨200, []⟩
        | some p => ⟨200, reconcileTail p.status (asaasMapStatus b.event p.status)⟩
      else ⟨200, []⟩

/-- Parsed fields of a Pagar.me webhook body: the event type and the optional
data id (body.data.id). -/
structure PagarmeBody where
  eventType : String
  dataId : Option String
deriving DecidableEq, Repr

/-- The event whitelist of the Pagar.me webhook handler. -/
def pagarmeEvents : List String :=
  ["order.paid", "order.payment_failed", "order.canceled",
   "charge.paid", "charge.payment_failed", "charge.refunded"]

/-- The Pagar.me event-to-status switch (default keeps the stored status). -/
def pagarmeMapStatus (event : String) (stored : PaymentStatus) : PaymentStatus :=
  if event = "order.paid" ∨ event = "charge.paid" then .approved
  else if event = "order.payment_failed" ∨ event = "charge.payment_failed" then .rejected
  else if event = "order.canceled" then .rejected
  else if event = "charge.refunded" then .refunded
  else stored

/-- The Pagar.me webhook handler.  In the source the data id check precedes
the relevant-events filter. -/
def pagarmeWebhook (body : Option PagarmeBody) (dbPayment : Option Payment) :
    WebhookOutcome :=
  match body with
  | none => ⟨500, []⟩
  | some b =>
    match b.dataId with
    | none => ⟨200, []⟩
    | some _ =>
      if b.eventType ∈ pagarmeEvents then
        match dbPayment with
        | none => ⟨200, []⟩
        | some p => ⟨200, reconcileTail p.status (pagarmeMapStatus b.eventType p.status)⟩
      else ⟨200, []⟩

/-- Parsed fields of a PagSeguro webhook body: the optional order id, the
status strings of body.charges, and whether the first qr code reports PAID. -/
structure PagseguroBody where
  orderId : Option String
  charges : List String
  qrPaid : Bool
deriving DecidableEq, Repr

/-- The PagSeguro charge loop: a PAID charge sets approved and breaks; a
DECLINED or CANCELED charge sets rejected and continues; any other charge
status leaves the accumulator unchanged. -/
def psChargeLoop : List String → PaymentStatus → PaymentStatus
  | [], s => s
  | c :: rest, s =>
    if c = "PAID" then .approved
    else if c = "DECLINED" ∨ c = "CANCELED" then psChargeLoop rest .rejected
    else psChargeLoop rest s

/-- The PagSeguro candidate status: the charge loop result, overridden to
approved when the first qr code reports PAID. -/
def psCandidate (b : PagseguroBody) (stored : PaymentStatus) : PaymentStatus :=
  if b.qrPaid then .approved else psChargeLoop b.charges stored

/-- The PagSeguro webhook handler. -/
def pagseguroWebhook (body : Option PagseguroBody) (dbPayment : Option Payment) :
    WebhookOutcome :=
  match body with
  | none => ⟨500, []⟩
  | some b =>
    match b.orderId with
    | none => ⟨200, []⟩
    | some _ =>
      match dbPayment with
      | none => ⟨200, []⟩
      | some p => ⟨200, reconcileTail p.status (psCandidate b p.status)⟩

/-- Parsed fields of a Mercado Pago webhook body. -/
structure MercadoPagoBody where
  typeField : String
  action : String
  dataId : Option String
deriving DecidableEq, Repr

/-- The Mercado Pago status switch used by its webhook handler (default keeps
the stored status). -/
def mpWebhookMapStatus (s : String) (stored : PaymentStatus) : PaymentStatus :=
  if s = "approved" then .approved
  else if s = "pending" ∨ s = "in_process" ∨ s = "authorized" then .pending
  else if s = "rejected" ∨ s = "cancelled" then .rejected
  else if s = "refunded" ∨ s = "charged_back" then .refunded
  else stored

/-- The Mercado Pago webhook handler.  After the event filter and the row
lookup it fetches the LIVE payment status from the Mercado Pago API;
liveStatus = none stands for that fetch throwing, which lands in the catch
branch (HTTP 500). -/
def mercadoPagoWebhook (body : Option MercadoPagoBody) (dbPayment : Option Payment)
    (liveStatus : Option String) : WebhookOutcome :=
  match body with
  | none => ⟨500, []⟩
  | some b =>
    if b.typeField ≠ "payment" ∧ b.action ≠ "payment.created" ∧
        b.action ≠ "payment.updated" then ⟨200, []⟩
    else
      match b.dataId with
      | none => ⟨200, []⟩
      | some _ =>
        match dbPayment with
        | none => ⟨200, []⟩
        | some p =>
          match liveStatus with
          | none => ⟨500, []⟩
          | some s => ⟨200, reconcileTail p.status (mpWebhookMapStatus s p.status)⟩

/-- Applies the Payment row update of a webhook outcome to the stored row
(status, and paid_at when the update sets it); now is the current instant. -/
def applyOutcome (now : String) (p : Payment) (o : WebhookOutcome) : Payment :=
  o.effects.foldl
    (fun q e =>
      match e with
      | .updatePayment st paid =>
          { q with status := st, paid_at := if paid then some now else q.paid_at }
      | .provision => q)
    p

/-- The profile update written by the renewal and link-by-email branches of
handlePaymentApproved: the new plan end date plus reactivation. -/
structure ProfileUpdate where
  plan_end_date : Int
  is_active : Bool
deriving DecidableEq, Repr

/-- The profile row inserted for a newly created account. -/
structure ProfileInsert where
  role : String
  full_name : String
  email : String
  plan_start_date : Int
  plan_end_date : Int
  is_active : Bool
deriving DecidableEq, Repr

/-- The externally visible result of one handlePaymentApproved run: which
branch of its decision tree ran and which writes it performed.  renewal
updates the profile referenced by the stored client id; linkExisting updates
the profile found by customer email and additionally writes that profile id
into the Payment row (client id linkage); createNew inserts a fresh profile,
links the Payment to it and dispatches the welcome email; authFailed is the
early return after a failed auth-user creation. -/
inductive ProvisioningResult where
  | planMissing
  | renewal (clientId : String) (upd : ProfileUpdate)
  | linkExisting (userId : String) (upd : ProfileUpdate)
  | createNew (profile : ProfileInsert) (welcomeEmail : Bool)
  | authFailed
deriving DecidableEq, Repr

/-- The provisioning side-effect handler, textually identical in the four
webhook functions and in the payment-create function.  today is the current
day; plan is the row fetched for payment.plan_id; clientProfile is the row
fetched by payment.client_id (when that id is present); emailProfile is the
row found by payment.customer_email; authOk tells whether the auth-user
creation of the new-account branch succeeds. -/
def handlePaymentApproved (today : Int) (plan : Option Plan) (payment : Payment)
    (clientProfile : Option Profile) (emailProfile : Option Profile)
    (authOk : Bool) : ProvisioningResult :=
  match plan with
  | none => .planMissing
  | some pl =>
    let planEndDate : Int := today + pl.duration_days
    match payment.client_id with
    | some cid =>
      let newEndDate : Int :=
        match clientProfile with
        | some pr =>
          match pr.plan_end_date with
          | some currentEnd =>
            if today < currentEnd then currentEnd + pl.duration_days else planEndDate
          | none => planEndDate
        | none => planEndDate
      .renewal cid ⟨newEndDate, true⟩
    | none =>
      match emailProfile with
      | some u => .linkExisting u.id ⟨planEndDate, true⟩
      | none =>
        if authOk then
          .createNew ⟨"client", payment.customer_name, payment.customer_email,
                      today, planEndDate, true⟩ true
        else .authFailed

/-- The JSON of a poll response: either an error object or a status object
(with the optional paid_at field). -/
inductive PollResponse where
  | errorResp (httpStatus : Nat) (msg : String)
  | statusResp (status : PaymentStatus) (paid_at : Option String)
deriving DecidableEq, Repr

/-- The status carried by a poll response, when it is a status response. -/
def PollResponse.statusOf : PollResponse → Option PaymentStatus
  | .errorResp _ _ => none
  | .statusResp s _ => some s

/-- Everything one run of the payment-status poll function does: the
response, whether the payment_settings row was queried (the queries and the
gateway call happen only past the stored-status short circuits), whether a
live gateway status-lookup call was issued, and the Payment row writes. -/
structure PollOutcome where
  response : PollResponse
  settingsRead : Bool
  gatewayCalled : Bool
  effects : List Effect
deriving DecidableEq, Repr

/-- The checkMercadoPagoStatus helper of the poll function: maps the live
Mercado Pago status string; a transport error (live = none) and any unknown
string both map to pending. -/
def checkMercadoPagoStatus (live : Option String) : PaymentStatus :=
  match live with
  | none => .pending
  | some s =>
    if s = "approved" then .approved
    else if s = "pending" ∨ s = "in_process" ∨ s = "authorized" then .pending
    else if s = "rejected" ∨ s = "cancelled" then .rejected
    else if s = "refunded" ∨ s = "charged_back" then .refunded
    else .pending

/-- The checkAsaasStatus helper of the poll function: maps the live Asaas
status string; a transport error maps to pending, an unknown string to
rejected. -/
def checkAsaasStatus (live : Option String) : PaymentStatus :=
  match live with
  | none => .pending
  | some s =>
    if s = "RECEIVED" ∨ s = "CONFIRMED" then .approved
    else if s = "PENDING" ∨ s = "AWAITING_RISK_ANALYSIS" then .pending
    else if s = "OVERDUE" then .expired
    else if s = "REFUNDED" ∨ s = "REFUND_REQUESTED" then .refunded
    else .rejected

/-- The payment-status poll function.  payment is the row found by the given
payment_id; settings is the payment_settings row of the payment owner;
liveMP and liveAsaas are the results of the respective live status-lookup
calls (consulted only on the branch that actually issues the call); now is
the current instant. -/
def paymentStatusPoll (payment_id : Option String) (payment : Option Payment)
    (settings : Option PaymentSettings) (liveMP liveAsaas : Option String)
    (now : String) : PollOutcome :=
  match payment_id with
  | none => ⟨.errorResp 400 "payment_id e obrigatorio", false, false, []⟩
  | some _ =>
    match payment with
    | none => ⟨.errorResp 404 "Pagamento nao encontrado", false, false, []⟩
    | some p =>
      if p.status = .approved then
        ⟨.statusResp .approved p.paid_at, false, false, []⟩
      else if p.status = .expired ∨ p.status = .rejected then
        ⟨.statusResp p.status none, false, false, []⟩
      else
        match settings with
        | none => ⟨.statusResp p.status none, true, false, []⟩
        | some s =>
          let gw : PaymentStatus × Bool :=
            if s.active_gateway = "mercado_pago" then (checkMercadoPagoStatus liveMP, true)
            else if s.active_gateway = "asaas" then (checkAsaasStatus liveAsaas, true)
            else (p.status, false)
          ⟨.statusResp gw.1 (if gw.1 = .approved then some now else none),
           true, gw.2,
           if gw.1 = p.status then []
           else [Effect.updatePayment gw.1 (gw.1 = PaymentStatus.approved)]⟩

/-- Customer contact fields of a payment-create request. -/
structure Customer where
  name : String
  email : String
  phone : Option String
  cpf : String
deriving DecidableEq, Repr

/-- Card fields of a payment-create request (only the fields the orchestrator
itself reads; the rest flow to the adapters). -/
structure CardData where
  number : String
  installments : Nat
deriving DecidableEq, Repr

/-- The parsed body of a payment-create request; a missing field is none. -/
structure CreateBody where
  owner_id : Option String
  plan_id : Option String
  payment_method : Option String
  customer : Option Customer
  card : Option CardData
deriving DecidableEq, Repr

/-- JavaScript truthiness of an optional string field (absent and the empty
string are both falsy). -/
def jsPresent : Option String → Bool
  | none => false
  | some s => s ≠ ""

/-- The normalized result of a gateway adapter createXxxPayment call: either
an error message, or the gateway payment id plus the mapped status (none
models a falsy status, which the insert defaults to pending). -/
structure GatewayResult where
  error : Option String
  gateway_payment_id : Option String
  status : Option PaymentStatus
deriving DecidableEq, Repr

/-- The Payment row fields inserted by the payment-create function that the
claims are about. -/
structure InsertedPayment where
  owner_id : String
  client_id : Option String
  plan_id : String
  gateway : String
  gateway_payment_id : Option String
  amount_cents : Nat
  payment_method : String
  status : PaymentStatus
  customer_email : String
  paid_at_set : Bool
deriving DecidableEq, Repr

/-- Everything one run of the payment-create function does. -/
structure CreateOutcome where
  httpStatus : Nat
  errorMsg : Option String
  gatewayCalled : Bool
  inserted : Option InsertedPayment
  provisionInvoked : Bool
deriving DecidableEq, Repr

/-- Character-wise lower-casing, modelling the toLowerCase call of the
source on the (ASCII) customer email. -/
def lowerStr (s : String) : String := ⟨s.data.map Char.toLower⟩

/-- The client_id value inserted for the existing-profile lookup result,
including the JavaScript falsy coalescing of the source (id or null). -/
def clientIdOf : Option Profile → Option String
  | none => none
  | some pr => if pr.id = "" then none else some pr.id

/-- The gateway names the payment-create switch dispatches on. -/
def knownGateways : List String := ["mercado_pago", "asaas", "pagseguro", "pagarme"]

/-- The payment-create function.  settings is the payment_settings row of the
given owner; plan is the subscription_plans row with the given plan id (the
source query also filters on is_active = true, modelled by the explicit
check); profiles is the profiles table contents used by the lookup keyed on
the lowercased customer email; gw is the result of the configured gateway
adapter call (consulted only when that call is actually reached). -/
def paymentCreate (body : CreateBody) (settings : Option PaymentSettings)
    (plan : Option Plan) (profiles : List Profile) (gw : GatewayResult) :
    CreateOutcome :=
  if ¬ (jsPresent body.owner_id ∧ jsPresent body.plan_id ∧
        jsPresent body.payment_method ∧ body.customer.isSome) then
    ⟨400, some "Dados incompletos", false, none, false⟩
  else
    match body.customer with
    | none => ⟨400, some "Dados incompletos", false, none, false⟩
    | some customer =>
      let method := body.payment_method.getD ""
      if method = "credit_card" ∧ body.card.isNone then
        ⟨400, some "Dados do cartao sao obrigatorios", false, none, false⟩
      else
        match settings with
        | none => ⟨400, some "Configuracoes de pagamento nao encontradas", false, none, false⟩
        | some s =>
          if method = "pix" ∧ s.pix_enabled = false then
            ⟨400, some "PIX nao esta habilitado", false, none, false⟩
          else if method = "boleto" ∧ s.boleto_enabled = false then
            ⟨400, some "Boleto nao esta habilitado", false, none, false⟩
          else if method = "credit_card" ∧ s.credit_card_enabled = false then
            ⟨400, some "Cartao de credito nao esta habilitado", false, none, false⟩
          else
            match plan with
            | none => ⟨400, some "Plano nao encontrado", false, none, false⟩
            | some pl =>
              if pl.is_active = false then
                ⟨400, some "Plano nao encontrado", false, none, false⟩
              else
                let existingClient :=
                  profiles.find? (fun pr => pr.email = lowerStr customer.email)
                if s.active_gateway ∈ knownGateways then
                  if jsPresent gw.error then
                    ⟨400, gw.error, true, none, false⟩
                  else
                    let row : InsertedPayment :=
                      { owner_id := body.owner_id.getD ""
                        client_id := clientIdOf existingClient
                        plan_id := body.plan_id.getD ""
                        gateway := s.active_gateway
                        gateway_payment_id := gw.gateway_payment_id
                        amount_cents := pl.price_cents
                        payment_method := method
                        status := gw.status.getD .pending
                        customer_email := lowerStr customer.email
                        paid_at_set := gw.status = some PaymentStatus.approved }
                    ⟨200, none, true, some row,
                     method = "credit_card" ∧ gw.status = some PaymentStatus.approved⟩
                else
                  ⟨400, some "Gateway nao configurado", false, none, false⟩

/-! Helper lemmas about the reconciliation core. -/

/-- The shared transition tail performs nothing when the candidate equals the
stored status. -/
theorem reconcileTail_self (s : PaymentStatus) : reconcileTail s s = [] := by
  simp [reconcileTail]

/-- After applying the effects of a reconciliation step, the stored status is
the candidate the step computed. -/
theorem applyOutcome_status (now : String) (p : Payment) (c : PaymentStatus)
    (h : Nat) :
    (applyOutcome now p ⟨h, reconcileTail p.status c⟩).status = c := by
  unfold applyOutcome reconcileTail
  by_cases hc : c = p.status
  · simp [hc]
  · by_cases ha : c = PaymentStatus.approved
    · subst ha
      simp [hc]
    · simp [hc, ha]

/-- On whitelisted Asaas events the candidate status does not depend on the
stored status. -/
theorem asaasMapStatus_const (e : String) (he : e ∈ asaasEvents)
    (s t : PaymentStatus) : asaasMapStatus e s = asaasMapStatus e t := by
  simp only [asaasEvents, List.mem_cons, List.mem_singleton, List.not_mem_nil,
    or_false] at he
  rcases he with h | h | h | h | h <;> subst h <;> simp [asaasMapStatus]

/-- On whitelisted Pagar.me events the candidate status does not depend on
the stored status. -/
theorem pagarmeMapStatus_const (e : String) (he : e ∈ pagarmeEvents)
    (s t : PaymentStatus) : pagarmeMapStatus e s = pagarmeMapStatus e t := by
  simp only [pagarmeEvents, List.mem_cons, List.mem_singleton, List.not_mem_nil,
    or_false] at he
  rcases he with h | h | h | h | h | h <;> subst h <;> simp [pagarmeMapStatus]

/-- The PagSeguro charge loop either computes a value independent of its
starting accumulator or is the identity on it. -/
theorem psChargeLoop_cases (l : List String) :
    (∀ s t, psChargeLoop l s = psChargeLoop l t) ∨
    (∀ s, psChargeLoop l s = s) := by
  induction l with
  | nil => exact Or.inr fun s => rfl
  | cons c rest ih =>
    by_cases h1 : c = "PAID"
    · exact Or.inl fun s t => by simp [psChargeLoop, h1]
    · by_cases h2 : c = "DECLINED" ∨ c = "CANCELED"
      · exact Or.inl fun s t => by simp [psChargeLoop, h1, h2]
      · rcases ih with hconst | hid
        · exact Or.inl fun s t => by simp [psChargeLoop, h1, h2, hconst s t]
        · exact Or.inr fun s => by simp [psChargeLoop, h1, h2, hid s]

/-- The PagSeguro candidate computation is idempotent in the stored status. -/
theorem psCandidate_idem (b : PagseguroBody) (s : PaymentStatus) :
    psCandidate b (psCandidate b s) = psCandidate b s := by
  unfold psCandidate
  by_cases hq : b.qrPaid
  · simp [hq]
  · simp only [hq, if_false, Bool.false_eq_true, if_neg]
    rcases psChargeLoop_cases b.charges with hconst | hid
    · exact hconst _ s
    · rw [hid, hid]

/-- A charge list containing no PAID, DECLINED or CANCELED entry leaves the
loop accumulator untouched. -/
theorem psChargeLoop_id_of_irrelevant (l : List String)
    (h : ∀ c ∈ l, c ≠ "PAID" ∧ c ≠ "DECLINED" ∧ c ≠ "CANCELED") (s : PaymentStatus) :
    psChargeLoop l s = s := by
  induction l with
  | nil => rfl
  | cons c rest ih =>
    have hc := h c (List.mem_cons_self c rest)
    have hrest : ∀ c ∈ rest, c ≠ "PAID" ∧ c ≠ "DECLINED" ∧ c ≠ "CANCELED" :=
      fun x hx => h x (List.mem_cons_of_mem c hx)
    simp [psChargeLoop, hc.1, hc.2.1, hc.2.2, ih hrest]

/-- Processing the same Asaas webhook body a second time, against the Payment
row as the first processing left it, performs no effect. -/
theorem asaasWebhook_second_noop (now : String) (b : AsaasBody) (p : Payment) :
    (asaasWebhook (some b)
      (some (applyOutcome now p (asaasWebhook (some b) (some p))))).effects = [] := by
  cases hid : b.paymentId with
  | none => simp [asaasWebhook, hid, applyOutcome]
  | some x =>
    by_cases he : b.event ∈ asaasEvents
    · have h1 : asaasWebhook (some b) (some p)
          = ⟨200, reconcileTail p.status (asaasMapStatus b.event p.status)⟩ := by
        simp [asaasWebhook, hid, he]
      rw [h1]
      have hq := applyOutcome_status now p (asaasMapStatus b.event p.status) 200
      have h2 : asaasWebhook (some b)
            (some (applyOutcome now p
              ⟨200, reconcileTail p.status (asaasMapStatus b.event p.status)⟩))
          = ⟨200, reconcileTail
              (applyOutcome now p
                ⟨200, reconcileTail p.status (asaasMapStatus b.event p.status)⟩).status
              (asaasMapStatus b.event
                (applyOutcome now p
                  ⟨200, reconcileTail p.status (asaasMapStatus b.event p.status)⟩).status)⟩ := by
        simp [asaasWebhook, hid, he]
      rw [h2, hq, asaasMapStatus_const b.event he (asaasMapStatus b.event p.status) p.status,
        reconcileTail_self]
    · simp [asaasWebhook, hid, he, applyOutcome]

/-- Processing the same Pagar.me webhook body a second time, against the
Payment row as the first processing left it, performs no effect. -/
theorem pagarmeWebhook_second_noop (now : String) (b : PagarmeBody) (p : Payment) :
    (pagarmeWebhook (some b)
      (some (applyOutcome now p (pagarmeWebhook (some b) (some p))))).effects = [] := by
  cases hid : b.dataId with
  | none => simp [pagarmeWebhook, hid, applyOutcome]
  | some x =>
    by_cases he : b.eventType ∈ pagarmeEvents
    · have h1 : pagarmeWebhook (some b) (some p)
          = ⟨200, reconcileTail p.status (pagarmeMapStatus b.eventType p.status)⟩ := by
        simp [pagarmeWebhook, hid, he]
      rw [h1]
      have hq := applyOutcome_status now p (pagarmeMapStatus b.eventType p.status) 200
      have h2 : pagarmeWebhook (some b)
            (some (applyOutcome now p
              ⟨200, reconcileTail p.status (pagarmeMapStatus b.eventType p.status)⟩))
          = ⟨200, reconcileTail
              (applyOutcome now p
                ⟨200, reconcileTail p.status (pagarmeMapStatus b.eventType p.status)⟩).status
              (pagarmeMapStatus b.eventType
                (applyOutcome now p
                  ⟨200, reconcileTail p.status (pagarmeMapStatus b.eventType p.status)⟩).status)⟩ := by
        simp [pagarmeWebhook, hid, he]
      rw [h2, hq,
        pagarmeMapStatus_const b.eventType he (pagarmeMapStatus b.eventType p.status) p.status,
        reconcileTail_self]
    · simp [pagarmeWebhook, hid, he, applyOutcome]

/-- Processing the same PagSeguro webhook body a second time, against the
Payment row as the first processing left it, performs no effect. -/
theorem pagseguroWebhook_second_noop (now : String) (b : PagseguroBody) (p : Payment) :
    (pagseguroWebhook (some b)
      (some (applyOutcome now p (pagseguroWebhook (some b) (some p))))).effects = [] := by
  cases hid : b.orderId with
  | none => simp [pagseguroWebhook, hid, applyOutcome]
  | some x =>
    have h1 : pagseguroWebhook (some b) (some p)
        = ⟨200, reconcileTail p.status (psCandidate b p.status)⟩ := by
      simp [pagseguroWebhook, hid]
    rw [h1]
    have hq := applyOutcome_status now p (psCandidate b p.status) 200
    have h2 : pagseguroWebhook (some b)
          (some (applyOutcome now p ⟨200, reconcileTail p.status (psCandidate b p.status)⟩))
        = ⟨200, reconcileTail
            (applyOutcome now p ⟨200, reconcileTail p.status (psCandidate b p.status)⟩).status
            (psCandidate b
              (applyOutcome now p
                ⟨200, reconcileTail p.status (psCandidate b p.status)⟩).status)⟩ := by
      simp [pagseguroWebhook, hid]
    rw [h2, hq, psCandidate_idem, reconcileTail_self]

/-! Concrete fixtures used by counterexamples and witnesses. -/

/-- A 30-day plan priced at 9900 cents. -/
def planMensal : Plan := ⟨"Mensal", 30, 9900, true⟩

/-- A stored Payment whose status is approved. -/
def paymentApproved1 : Payment :=
  ⟨"pay_1", some "cli_1", "plan_1", .approved, some "2026-01-01T00:00:00Z",
   "ana@example.com", "Ana", none⟩

/-- A stored Payment whose status is pending and which has no client id. -/
def paymentPending1 : Payment :=
  ⟨"pay_2", none, "plan_1", .pending, none, "bob@example.com", "Bob", none⟩

/-- A profile whose plan end date lies 100 days in the future of day 0. -/
def profileFuture : Profile := ⟨"u_1", "bob@example.com", some 100⟩

/-- Settings with Mercado Pago as the active gateway and all methods on. -/
def settingsMP : PaymentSettings := ⟨"mercado_pago", true, true, true⟩

/-- Settings with PagSeguro as the active gateway and all methods on. -/
def settingsPS : PaymentSettings := ⟨"pagseguro", true, true, true⟩

/-- C1: the claim states that the reconciliation step refuses to overwrite a
stored approved (or refunded) status with a lower-precedence incoming status.
The code has no such precedence guard: an Asaas PAYMENT_OVERDUE webhook for a
stored approved Payment writes expired over approved, and a Mercado Pago
webhook whose live status lookup reads pending writes pending over approved. -/
theorem c1_webhook_overwrites_terminal_status :
    paymentApproved1.status = PaymentStatus.approved
    ∧ asaasWebhook (some ⟨"PAYMENT_OVERDUE", some "gw_1"⟩) (some paymentApproved1)
        = ⟨200, [Effect.updatePayment PaymentStatus.expired false]⟩
    ∧ mercadoPagoWebhook (some ⟨"payment", "payment.updated", some "123"⟩)
        (some paymentApproved1) (some "pending")
        = ⟨200, [Effect.updatePayment PaymentStatus.pending false]⟩ := by
  refine ⟨rfl, ?_, ?_⟩ <;> rfl

/-- C2 counterexample: a poll that discovers approval (stored pending, live
Mercado Pago status approved) performs the status write but never invokes the
provisioning handler, refuting the claim for the polling entry point. -/
theorem c2_poll_approval_without_provisioning :
    paymentStatusPoll (some "pay_2") (some paymentPending1) (some settingsMP)
        (some "approved") none "T1"
      = ⟨.statusResp .approved (some "T1"), true, true,
         [Effect.updatePayment PaymentStatus.approved true]⟩
    ∧ Effect.provision ∉
        (paymentStatusPoll (some "pay_2") (some paymentPending1) (some settingsMP)
          (some "approved") none "T1").effects := by
  have h : paymentStatusPoll (some "pay_2") (some paymentPending1) (some settingsMP)
      (some "approved") none "T1"
      = ⟨.statusResp .approved (some "T1"), true, true,
         [Effect.updatePayment PaymentStatus.approved true]⟩ := by rfl
  exact ⟨h, by rw [h]; simp⟩

/-- C2 amended: only the webhook entry point invokes provisioning.  When a
webhook transition changes the stored status into approved, the handler
performs the status write and then invokes provisioning synchronously; the
polling entry point never invokes provisioning, even when its write
transitions the payment into approved. -/
theorem c2_amended_provisioning_webhook_only :
    (∀ (b : PagseguroBody) (oid : String) (p : Payment),
        b.orderId = some oid →
        psCandidate b p.status = PaymentStatus.approved →
        p.status ≠ PaymentStatus.approved →
        pagseguroWebhook (some b) (some p)
          = ⟨200, [Effect.updatePayment PaymentStatus.approved true, Effect.provision]⟩)
    ∧ (∀ (pid : Option String) (payment : Option Payment)
        (settings : Option PaymentSettings) (liveMP liveAsaas : Option String)
        (now : String),
        Effect.provision ∉
          (paymentStatusPoll pid payment settings liveMP liveAsaas now).effects) := by
  constructor
  · intro b oid p hid hc hs
    have hs2 : PaymentStatus.approved ≠ p.status := Ne.symm hs
    simp [pagseguroWebhook, hid, hc, reconcileTail, hs2]
  · intro pid payment settings liveMP liveAsaas now
    unfold paymentStatusPoll
    rcases pid with _ | pid
    · simp
    rcases payment with _ | p
    · simp
    by_cases h1 : p.status = PaymentStatus.approved
    · simp [h1]
    by_cases h2 : p.status = PaymentStatus.expired ∨ p.status = PaymentStatus.rejected
    · simp [h1, h2]
    rcases settings with _ | s
    · simp [h1, h2]
    simp only [h1, h2, if_false]
    split <;> simp_all

/-- C3: the claim states that when the Payment has no client id and an
account is found by customer email, the renewal extension logic applies (a
future end date is extended, never shortened).  The code applies no extension
in that branch: with todays day 0, a 30-day plan and an account whose end
date is day 100 (in the future), it writes end date 30, silently shortening
an unexpired plan; only the client id linkage part of the claim holds. -/
theorem c3_email_branch_overwrites_future_end_date :
    handlePaymentApproved 0 (some planMensal) paymentPending1 none
        (some profileFuture) true
      = .linkExisting "u_1" ⟨30, true⟩
    ∧ profileFuture.plan_end_date = some 100
    ∧ (0 : Int) < 100 ∧ (30 : Int) < 100 := by
  exact ⟨rfl, rfl, by decide, by decide⟩

/-- C4: in the renewal case (the Payment references a client account), a plan
of D days extends a still-future end date e to e + D, restarts a lapsed or
unset end date to today + D, and always reactivates the account. -/
theorem c4_renewal_extension_law (today : Int) (pl : Plan) (p : Payment)
    (cid : String) (emailProfile : Option Profile) (authOk : Bool)
    (hcid : p.client_id = some cid) :
    (∀ (pr : Profile) (e : Int), pr.plan_end_date = some e → today < e →
        handlePaymentApproved today (some pl) p (some pr) emailProfile authOk
          = .renewal cid ⟨e + pl.duration_days, true⟩)
    ∧ (∀ (pr : Profile) (e : Int), pr.plan_end_date = some e → e < today →
        handlePaymentApproved today (some pl) p (some pr) emailProfile authOk
          = .renewal cid ⟨today + pl.duration_days, true⟩)
    ∧ (∀ pr : Profile, pr.plan_end_date = none →
        handlePaymentApproved today (some pl) p (some pr) emailProfile authOk
          = .renewal cid ⟨today + pl.duration_days, true⟩) := by
  refine ⟨?_, ?_, ?_⟩
  · intro pr e he hlt
    simp [handlePaymentApproved, hcid, he, hlt]
  · intro pr e he hlt
    simp [handlePaymentApproved, hcid, he, not_lt.mpr (le_of_lt hlt)]
  · intro pr he
    simp [handlePaymentApproved, hcid, he]

/-- Witness for C4: with day 0, a 30-day plan and a stored client id, an end
date of day 10 becomes day 40 (extension) and an end date of day -1 (lapsed)
becomes day 30 (restart). -/
theorem c4_renewal_extension_law_witness :
    handlePaymentApproved 0 (some planMensal) paymentApproved1
        (some ⟨"cli_1", "ana@example.com", some 10⟩) none true
      = .renewal "cli_1" ⟨40, true⟩
    ∧ handlePaymentApproved 0 (some planMensal) paymentApproved1
        (some ⟨"cli_1", "ana@example.com", some (-1)⟩) none true
      = .renewal "cli_1" ⟨30, true⟩ := by
  constructor
  · have h := (c4_renewal_extension_law 0 planMensal paymentApproved1 "cli_1"
      none true rfl).1 ⟨"cli_1", "ana@example.com", some 10⟩ 10 rfl (by decide)
    exact h.trans (by decide)
  · have h := (c4_renewal_extension_law 0 planMensal paymentApproved1 "cli_1"
      none true rfl).2.1 ⟨"cli_1", "ana@example.com", some (-1)⟩ (-1) rfl (by decide)
    exact h.trans (by decide)

/-- C5: duplicate webhook delivery is idempotent.  Re-processing the same
Pagar.me or PagSeguro webhook body against the Payment row as the first
processing left it performs no effect at all (no second write, no second
provisioning, hence no second account or notification); and a first delivery
of a paid event to a not-yet-approved payment performs exactly one write
followed by exactly one provisioning invocation. -/
theorem c5_duplicate_webhook_idempotent :
    (∀ (now : String) (b : PagarmeBody) (p : Payment),
        (pagarmeWebhook (some b)
          (some (applyOutcome now p (pagarmeWebhook (some b) (some p))))).effects = [])
    ∧ (∀ (now : String) (b : PagseguroBody) (p : Payment),
        (pagseguroWebhook (some b)
          (some (applyOutcome now p (pagseguroWebhook (some b) (some p))))).effects = [])
    ∧ (∀ p : Payment, p.status ≠ PaymentStatus.approved →
        pagarmeWebhook (some ⟨"charge.paid", some "gw_5"⟩) (some p)
          = ⟨200, [Effect.updatePayment PaymentStatus.approved true, Effect.provision]⟩) := by
  refine ⟨pagarmeWebhook_second_noop, pagseguroWebhook_second_noop, ?_⟩
  intro p hp
  have hp2 : PaymentStatus.approved ≠ p.status := Ne.symm hp
  simp [pagarmeWebhook, pagarmeEvents, pagarmeMapStatus, reconcileTail, hp2]

/-- Witness for C5: a concrete duplicate charge.paid delivery for a pending
payment; the first delivery writes and provisions once, the duplicate does
nothing. -/
theorem c5_duplicate_webhook_idempotent_witness :
    (pagarmeWebhook (some ⟨"charge.paid", some "gw_5"⟩)
      (some (applyOutcome "T3" paymentPending1
        (pagarmeWebhook (some ⟨"charge.paid", some "gw_5"⟩)
          (some paymentPending1))))).effects = []
    ∧ pagarmeWebhook (some ⟨"charge.paid", some "gw_5"⟩) (some paymentPending1)
      = ⟨200, [Effect.updatePayment PaymentStatus.approved true, Effect.provision]⟩ :=
  ⟨c5_duplicate_webhook_idempotent.1 "T3" ⟨"charge.paid", some "gw_5"⟩ paymentPending1,
   c5_duplicate_webhook_idempotent.2.2 paymentPending1 (by decide)⟩

/-- C6 counterexample: the claim states a stored approved status is excluded
from the polling short circuit and still triggers a live gateway lookup.  In
the code a stored approved payment returns immediately: with an active
Mercado Pago gateway whose live endpoint would even report refunded, the poll
reads no settings, issues no gateway call, writes nothing and returns the
stored approved status and paid_at. -/
theorem c6_approved_short_circuits_counterexample :
    paymentStatusPoll (some "pay_1") (some paymentApproved1) (some settingsMP)
        (some "refunded") none "T2"
      = ⟨.statusResp .approved paymentApproved1.paid_at, false, false, []⟩
    ∧ paymentApproved1.status = PaymentStatus.approved
    ∧ settingsMP.active_gateway = "mercado_pago" :=
  ⟨rfl, rfl, rfl⟩

/-- C6 amended: the polling entry short-circuits, returning the stored status
without reading payment settings or contacting any gateway, exactly when the
stored status is approved, rejected or expired; approved is included (it
returns the stored paid_at), so a later refund is never discovered by
polling. -/
theorem c6_amended_short_circuit_set (pid : String) (p : Payment)
    (settings : Option PaymentSettings) (liveMP liveAsaas : Option String)
    (now : String) :
    ((paymentStatusPoll (some pid) (some p) settings liveMP liveAsaas now).settingsRead
        = false
      ↔ (p.status = PaymentStatus.approved ∨ p.status = PaymentStatus.rejected
          ∨ p.status = PaymentStatus.expired))
    ∧ (p.status = PaymentStatus.approved →
        paymentStatusPoll (some pid) (some p) settings liveMP liveAsaas now
          = ⟨.statusResp .approved p.paid_at, false, false, []⟩)
    ∧ ((p.status = PaymentStatus.rejected ∨ p.status = PaymentStatus.expired) →
        paymentStatusPoll (some pid) (some p) settings liveMP liveAsaas now
          = ⟨.statusResp p.status none, false, false, []⟩) := by
  refine ⟨?_, ?_, ?_⟩
  · by_cases h1 : p.status = PaymentStatus.approved
    · simp [paymentStatusPoll, h1]
    · by_cases h2 : p.status = PaymentStatus.expired ∨ p.status = PaymentStatus.rejected
      · simp only [paymentStatusPoll, h1, if_false, h2, if_true]
        constructor
        · intro _
          tauto
        · intro _
          trivial
      · rcases settings with _ | s
        · simp [paymentStatusPoll, h1, h2]
          tauto
        · simp [paymentStatusPoll, h1, h2]
          tauto
  · intro h1
    simp [paymentStatusPoll, h1]
  · intro h2
    have h1 : p.status ≠ PaymentStatus.approved := by
      rcases h2 with h | h <;> simp [h]
    have h2x : p.status = PaymentStatus.expired ∨ p.status = PaymentStatus.rejected :=
      h2.symm
    simp [paymentStatusPoll, h1, h2x]

/-- Witness for C6 amended: a concrete rejected payment short-circuits and a
concrete pending payment does not. -/
theorem c6_amended_short_circuit_set_witness :
    paymentStatusPoll (some "pay_7")
        (some ⟨"pay_7", none, "plan_1", .rejected, none, "c@d.e", "C", none⟩)
        (some settingsMP) none none "T4"
      = ⟨.statusResp .rejected none, false, false, []⟩
    ∧ ((paymentStatusPoll (some "pay_2") (some paymentPending1) (some settingsMP)
        none none "T4").settingsRead = false
      ↔ (paymentPending1.status = PaymentStatus.approved
          ∨ paymentPending1.status = PaymentStatus.rejected
          ∨ paymentPending1.status = PaymentStatus.expired)) :=
  ⟨(c6_amended_short_circuit_set "pay_7"
      ⟨"pay_7", none, "plan_1", .rejected, none, "c@d.e", "C", none⟩
      (some settingsMP) none none "T4").2.2 (Or.inl rfl),
   (c6_amended_short_circuit_set "pay_2" paymentPending1
      (some settingsMP) none none "T4").1⟩

/-- C7 counterexample: the claim states every malformed webhook body gets an
HTTP success response.  A body that fails JSON parsing lands in the catch
branch of every handler and is answered with HTTP 500, not 200 (though still
with no state change). -/
theorem c7_malformed_body_returns_500 :
    pagseguroWebhook none (some paymentPending1) = ⟨500, []⟩
    ∧ pagarmeWebhook none (some paymentPending1) = ⟨500, []⟩
    ∧ (500 : Nat) ≠ 200 :=
  ⟨rfl, rfl, by decide⟩

/-- C7 amended: a webhook request whose body parses as JSON but lacks the
expected identifier fields or carries an unrecognized event or charge status
is acknowledged with HTTP 200 and no state change; a request whose body fails
JSON parsing is answered with HTTP 500, still with no state change. -/
theorem c7_amended_unrecognized_acknowledged :
    (∀ db : Option Payment, pagseguroWebhook none db = ⟨500, []⟩)
    ∧ (∀ (chs : List String) (qr : Bool) (db : Option Payment),
        pagseguroWebhook (some ⟨none, chs, qr⟩) db = ⟨200, []⟩)
    ∧ (∀ (oid : String) (chs : List String) (p : Payment),
        (∀ c ∈ chs, c ≠ "PAID" ∧ c ≠ "DECLINED" ∧ c ≠ "CANCELED") →
        pagseguroWebhook (some ⟨some oid, chs, false⟩) (some p) = ⟨200, []⟩)
    ∧ (∀ db : Option Payment, pagarmeWebhook none db = ⟨500, []⟩)
    ∧ (∀ (b : PagarmeBody) (db : Option Payment), b.eventType ∉ pagarmeEvents →
        pagarmeWebhook (some b) db = ⟨200, []⟩) := by
  refine ⟨fun db => rfl, fun chs qr db => rfl, ?_, fun db => rfl, ?_⟩
  · intro oid chs p h
    simp [pagseguroWebhook, psCandidate, psChargeLoop_id_of_irrelevant chs h,
      reconcileTail]
  · intro b db h
    cases hid : b.dataId with
    | none => simp [pagarmeWebhook, hid]
    | some x => simp [pagarmeWebhook, hid, h]

/-- Witness for C7 amended: a concrete unknown charge status and a concrete
unknown Pagar.me event type are both acknowledged with 200 and no effects. -/
theorem c7_amended_unrecognized_acknowledged_witness :
    pagseguroWebhook (some ⟨some "ord_1", ["WAITING"], false⟩) (some paymentPending1)
      = ⟨200, []⟩
    ∧ pagarmeWebhook (some ⟨"order.created", some "x_1"⟩) (some paymentPending1)
      = ⟨200, []⟩ :=
  ⟨c7_amended_unrecognized_acknowledged.2.2.1 "ord_1" ["WAITING"] paymentPending1
      (by decide),
   c7_amended_unrecognized_acknowledged.2.2.2.2 ⟨"order.created", some "x_1"⟩
      (some paymentPending1) (by decide)⟩

/-- Settings with credit card checkout disabled. -/
def settingsNoCard : PaymentSettings := ⟨"mercado_pago", true, true, false⟩

/-- Settings with no gateway configured. -/
def settingsNoGateway : PaymentSettings := ⟨"none", true, true, true⟩

/-- A plan that exists but is inactive. -/
def planInativo : Plan := ⟨"Velho", 30, 5000, false⟩

/-- A checkout customer whose email carries upper-case letters. -/
def customerBob : Customer := ⟨"Bob", "Bob@Example.com", none, "12345678900"⟩

/-- A card payload for credit card checkouts. -/
def cardX : CardData := ⟨"4111111111111111", 1⟩

/-- A successful gateway adapter result with a pending mapped status. -/
def gwPending : GatewayResult := ⟨none, some "gw_9", some .pending⟩

/-- C8: each violated payment-creation precondition (requested method
disabled in settings, plan missing or inactive, no active gateway) produces
a 400 validation error naming the unmet precondition, with no gateway call
and no Payment row insertion. -/
theorem c8_create_validation_preconditions (owner pid : String)
    (cust : Customer) (cd : CardData) (card : Option CardData)
    (s : PaymentSettings) (plan : Option Plan) (profiles : List Profile)
    (gw : GatewayResult) (howner : owner ≠ "") (hpid : pid ≠ "") :
    (s.credit_card_enabled = false →
      paymentCreate ⟨some owner, some pid, some "credit_card", some cust, some cd⟩
          (some s) plan profiles gw
        = ⟨400, some "Cartao de credito nao esta habilitado", false, none, false⟩)
    ∧ (s.pix_enabled = true → plan = none →
      paymentCreate ⟨some owner, some pid, some "pix", some cust, card⟩
          (some s) plan profiles gw
        = ⟨400, some "Plano nao encontrado", false, none, false⟩)
    ∧ (∀ pl : Plan, s.pix_enabled = true → plan = some pl → pl.is_active = false →
      paymentCreate ⟨some owner, some pid, some "pix", some cust, card⟩
          (some s) plan profiles gw
        = ⟨400, some "Plano nao encontrado", false, none, false⟩)
    ∧ (∀ pl : Plan, s.pix_enabled = true → plan = some pl → pl.is_active = true →
      s.active_gateway ∉ knownGateways →
      paymentCreate ⟨some owner, some pid, some "pix", some cust, card⟩
          (some s) plan profiles gw
        = ⟨400, some "Gateway nao configurado", false, none, false⟩) := by
  refine ⟨?_, ?_, ?_, ?_⟩
  · intro hcc
    simp [paymentCreate, jsPresent, howner, hpid, hcc]
  · intro hpix hplan
    subst hplan
    simp [paymentCreate, jsPresent, howner, hpid, hpix]
  · intro pl hpix hplan hact
    subst hplan
    simp [paymentCreate, jsPresent, howner, hpid, hpix, hact]
  · intro pl hpix hplan hact hmem
    subst hplan
    simp [paymentCreate, jsPresent, howner, hpid, hpix, hact, hmem]

/-- Witness for C8: concrete checkouts hitting each precondition violation. -/
theorem c8_create_validation_preconditions_witness :
    paymentCreate ⟨some "own_1", some "plan_1", some "credit_card",
        some customerBob, some cardX⟩ (some settingsNoCard) (some planMensal) [] gwPending
      = ⟨400, some "Cartao de credito nao esta habilitado", false, none, false⟩
    ∧ paymentCreate ⟨some "own_1", some "plan_1", some "pix",
        some customerBob, none⟩ (some settingsMP) none [] gwPending
      = ⟨400, some "Plano nao encontrado", false, none, false⟩
    ∧ paymentCreate ⟨some "own_1", some "plan_1", some "pix",
        some customerBob, none⟩ (some settingsMP) (some planInativo) [] gwPending
      = ⟨400, some "Plano nao encontrado", false, none, false⟩
    ∧ paymentCreate ⟨some "own_1", some "plan_1", some "pix",
        some customerBob, none⟩ (some settingsNoGateway) (some planMensal) [] gwPending
      = ⟨400, some "Gateway nao configurado", false, none, false⟩ :=
  ⟨(c8_create_validation_preconditions "own_1" "plan_1" customerBob cardX
      (some cardX) settingsNoCard (some planMensal) [] gwPending
      (by decide) (by decide)).1 rfl,
   (c8_create_validation_preconditions "own_1" "plan_1" customerBob cardX
      none settingsMP none [] gwPending (by decide) (by decide)).2.1 rfl rfl,
   (c8_create_validation_preconditions "own_1" "plan_1" customerBob cardX
      none settingsMP (some planInativo) [] gwPending
      (by decide) (by decide)).2.2.1 planInativo rfl rfl rfl,
   (c8_create_validation_preconditions "own_1" "plan_1" customerBob cardX
      none settingsNoGateway (some planMensal) [] gwPending
      (by decide) (by decide)).2.2.2 planMensal rfl rfl rfl (by decide)⟩

/-- C9: when the owners settings name an active gateway other than
mercado_pago and asaas (for example pagseguro or pagarme), the status poll
never issues a live gateway call, never writes to the Payment row, and always
answers with the currently stored status, whatever that status is. -/
theorem c9_poll_unknown_gateway_no_call (pid : String) (p : Payment)
    (s : PaymentSettings) (liveMP liveAsaas : Option String) (now : String)
    (h1 : s.active_gateway ≠ "mercado_pago") (h2 : s.active_gateway ≠ "asaas") :
    (paymentStatusPoll (some pid) (some p) (some s) liveMP liveAsaas now).gatewayCalled
        = false
    ∧ (paymentStatusPoll (some pid) (some p) (some s) liveMP liveAsaas now).effects = []
    ∧ (paymentStatusPoll (some pid) (some p) (some s) liveMP liveAsaas
        now).response.statusOf = some p.status := by
  by_cases ha : p.status = PaymentStatus.approved
  · simp [paymentStatusPoll, ha, PollResponse.statusOf]
  by_cases hb : p.status = PaymentStatus.expired ∨ p.status = PaymentStatus.rejected
  · simp [paymentStatusPoll, ha, hb, PollResponse.statusOf]
  · simp [paymentStatusPoll, ha, hb, h1, h2, PollResponse.statusOf]

/-- Witness for C9: polling a pending payment whose owner uses the PagSeguro
gateway issues no live call, writes nothing and returns pending. -/
theorem c9_poll_unknown_gateway_no_call_witness :
    (paymentStatusPoll (some "pay_2") (some paymentPending1) (some settingsPS)
        none none "T5").gatewayCalled = false
    ∧ (paymentStatusPoll (some "pay_2") (some paymentPending1) (some settingsPS)
        none none "T5").effects = []
    ∧ (paymentStatusPoll (some "pay_2") (some paymentPending1) (some settingsPS)
        none none "T5").response.statusOf = some paymentPending1.status :=
  c9_poll_unknown_gateway_no_call "pay_2" paymentPending1 settingsPS none none "T5"
    (by decide) (by decide)

/-- C10: on a successful payment creation the inserted Payment row carries
client_id equal to the id of the profile whose email equals the customers
email lowercased, when such a profile exists (and a non-empty id), and
client_id null when no such profile exists. -/
theorem c10_create_links_profile_by_lowercased_email (owner pid : String)
    (cust : Customer) (card : Option CardData) (s : PaymentSettings) (pl : Plan)
    (profiles : List Profile) (gw : GatewayResult)
    (howner : owner ≠ "") (hpid : pid ≠ "")
    (hpix : s.pix_enabled = true) (hgw : s.active_gateway ∈ knownGateways)
    (hactive : pl.is_active = true) (herr : gw.error = none) :
    (paymentCreate ⟨some owner, some pid, some "pix", some cust, card⟩
        (some s) (some pl) profiles gw).httpStatus = 200
    ∧ (∀ pr : Profile,
        profiles.find? (fun q => q.email = lowerStr cust.email) = some pr →
        pr.id ≠ "" →
        (paymentCreate ⟨some owner, some pid, some "pix", some cust, card⟩
            (some s) (some pl) profiles gw).inserted.map InsertedPayment.client_id
          = some (some pr.id))
    ∧ (profiles.find? (fun q => q.email = lowerStr cust.email) = none →
        (paymentCreate ⟨some owner, some pid, some "pix", some cust, card⟩
            (some s) (some pl) profiles gw).inserted.map InsertedPayment.client_id
          = some none) := by
  refine ⟨?_, ?_, ?_⟩
  · simp [paymentCreate, jsPresent, howner, hpid, hpix, hactive, hgw, herr]
  · intro pr hfind hprid
    simp [paymentCreate, jsPresent, howner, hpid, hpix, hactive, hgw, herr,
      hfind, clientIdOf, hprid]
  · intro hfind
    simp [paymentCreate, jsPresent, howner, hpid, hpix, hactive, hgw, herr,
      hfind, clientIdOf]

/-- Witness for C10: with a profile table holding bob at bob@example.com, a
checkout for Bob@Example.com links the new row to that profile; with no
profiles the new row has client_id null. -/
theorem c10_create_links_profile_by_lowercased_email_witness :
    (paymentCreate ⟨some "own_1", some "plan_1", some "pix", some customerBob, none⟩
        (some settingsMP) (some planMensal) [profileFuture] gwPending).inserted.map
        InsertedPayment.client_id = some (some "u_1")
    ∧ (paymentCreate ⟨some "own_1", some "plan_1", some "pix", some customerBob, none⟩
        (some settingsMP) (some planMensal) [] gwPending).inserted.map
        InsertedPayment.client_id = some none :=
  ⟨(c10_create_links_profile_by_lowercased_email "own_1" "plan_1" customerBob none
      settingsMP planMensal [profileFuture] gwPending (by decide) (by decide)
      rfl (by decide) rfl rfl).2.1 profileFuture (by decide) (by decide),
   (c10_create_links_profile_by_lowercased_email "own_1" "plan_1" customerBob none
      settingsMP planMensal [] gwPending (by decide) (by decide)
      rfl (by decide) rfl rfl).2.2 rfl⟩

/-- Witness for C2 amended: a concrete PagSeguro PAID webhook for a pending
payment writes then provisions, and a concrete approval-discovering poll has
no provisioning effect. -/
theorem c2_amended_provisioning_webhook_only_witness :
    pagseguroWebhook (some ⟨some "ord_2", ["PAID"], false⟩) (some paymentPending1)
      = ⟨200, [Effect.updatePayment PaymentStatus.approved true, Effect.provision]⟩
    ∧ Effect.provision ∉
        (paymentStatusPoll (some "pay_2") (some paymentPending1) (some settingsMP)
          (some "approved") none "T1").effects :=
  ⟨c2_amended_provisioning_webhook_only.1 ⟨some "ord_2", ["PAID"], false⟩ "ord_2"
      paymentPending1 rfl (by decide) (by decide),
   c2_amended_provisioning_webhook_only.2 (some "pay_2") (some paymentPending1)
      (some settingsMP) (some "approved") none "T1"⟩
